import Mathlib

/-!
Verification of the cleaning-and-merge reconciliation stage of the
restaurant-merger-analysis pipeline (Script/01_clean_and_merge.py and
Script/02_load_database.py), as a shallow embedding in Lean.

Conventions of the embedding:
  - a pandas NaN / NaT / null cell is `none`; a present value is `some v`;
  - `pd.to_datetime(..., errors="coerce")` output is already an
    `Option Date` / `Option Time` (parse failures are `none`);
  - a DataFrame is either a typed list of rows (`List NRecord`) when a
    claim is about row-wise transforms, or a column-oriented
    `Frame = List (String, List (Option String))` when a claim is about
    column selection and dropping;
  - pandas operations that raise (`df[cols]` with a missing column,
    `df.drop(columns=...)` with a missing column) return `Except` values
    whose error payload names the offending columns, as the KeyError does.
-/

/-- Calendar date as produced by a successful pd.to_datetime parse. -/
structure Date where
  year : Nat
  month : Nat
  day : Nat
deriving DecidableEq, Repr

/-- Clock time (HH:MM) as produced by the time-standardisation step. -/
structure Time where
  hour : Nat
  minute : Nat
deriving DecidableEq, Repr

/-! ## Date repair (Script/01, lines 74-80 for ABC; lines 141-145 for XYZ) -/

/-- Predicate of the corrupt-date mask `abc[...].dt.year == 1970`:
a parsed (non-null) date whose year is 1970. -/
def is1970 (d : Option Date) : Bool :=
  match d with
  | some dt => dt.year == 1970
  | none => false

/-- ABC repair of one date cell: `abc.loc[bad_date_mask, ...] = pd.NaT`;
a parsed date with year 1970 is reset to null, anything else is kept. -/
def repairDateABC (d : Option Date) : Option Date :=
  match d with
  | some dt => if dt.year == 1970 then none else some dt
  | none => none

/-- ABC repair applied to the whole date column. -/
def repairDatesABC (ds : List (Option Date)) : List (Option Date) :=
  ds.map repairDateABC

/-- Count of corrupt ABC dates, `n_bad = bad_date_mask.sum()`, recorded
in the cleaning log. -/
def badDateCountABC (ds : List (Option Date)) : Nat :=
  (ds.filter is1970).length

/-- XYZ date handling (lines 142-145): the column is parsed, and a count
of suspicious pre-2015 dates is logged, but no cell is modified. -/
def repairDatesXYZ (ds : List (Option Date)) : List (Option Date) :=
  ds

/-- Count of suspicious XYZ dates, `bad_xyz = (xyz[...].dt.year < 2015).sum()`,
recorded in the cleaning log. -/
def badDateCountXYZ (ds : List (Option Date)) : Nat :=
  (ds.filter (fun d =>
    match d with
    | some dt => decide (dt.year < 2015)
    | none => false)).length

/-! ## Vocabulary normalisation (Script/01, lines 87-96 and 148-158) -/

/-- ABC lookup table `category_map_abc` (lines 87-94), verbatim. -/
def category_map_abc : List (String × String) :=
  [("salad", "Salads"),
   ("Pasta", "Pasta"),
   ("Pizza", "Pizza"),
   ("Sandwich", "Sandwiches"),
   ("Appetizers", "Appetizers"),
   ("Beverages", "Beverages")]

/-- XYZ lookup table `category_map_xyz` (lines 148-156), verbatim. -/
def category_map_xyz : List (String × String) :=
  [("Pizza", "Pizza"),
   ("Dessert", "Dessert"),
   ("Appetizers", "Appetizers"),
   ("Salads", "Salads"),
   ("Pasta", "Pasta"),
   ("Sandwiches", "Sandwiches"),
   ("Beverage", "Beverages")]

/-- One cell of `df["item_category"].map(m).fillna(df["item_category"])`:
a value found in the lookup table is replaced by its canonical spelling,
a value absent from the table falls back to itself. -/
def applyVocab (m : List (String × String)) (v : String) : String :=
  match m.lookup v with
  | some c => c
  | none => v

/-- Same cell transform lifted to a nullable cell: `Series.map` sends a
null to null, and `fillna` with the original null keeps it null. -/
def applyVocabOpt (m : List (String × String)) (v : Option String) : Option String :=
  v.map (applyVocab m)

/-- Canonical seven-category vocabulary shared by both sources after
normalisation. -/
def canonicalVocab : List String :=
  ["Appetizers", "Beverages", "Dessert", "Pasta", "Pizza", "Salads", "Sandwiches"]

/-! ## Derived columns (Script/01, lines 103-126 and 165-177) -/

/-- Time-of-day flag of one row (lines 104-106 and 166-168):
AM when the time is non-null and its hour is below 12, otherwise PM
(the else-branch also catches a null time). -/
def timeOfDay (t : Option Time) : String :=
  match t with
  | some tm => if tm.hour < 12 then "AM" else "PM"
  | none => "PM"

/-- English month names as produced by `dt.strftime` with the full-name
format; months are 1-based. -/
def monthNames : List String :=
  ["January", "February", "March", "April", "May", "June",
   "July", "August", "September", "October", "November", "December"]

/-- Name of month `m` (1-12); out-of-range months cannot arise from a
parsed date. -/
def monthName (m : Nat) : String :=
  monthNames.getD (m - 1) ""

/-- Season of a nullable month number, `get_season` (lines 113-119):
null stays null, 12/1/2 map to Winter, 3/4/5 to Spring, 6/7/8 to Summer,
everything else to Fall. -/
def get_season (m : Option Nat) : Option String :=
  match m with
  | none => none
  | some mo =>
    if mo = 12 ∨ mo = 1 ∨ mo = 2 then some "Winter"
    else if mo = 3 ∨ mo = 4 ∨ mo = 5 then some "Spring"
    else if mo = 6 ∨ mo = 7 ∨ mo = 8 then some "Summer"
    else some "Fall"

/-! ## Coded boolean relabelling (Script/01, lines 124-126 and 174-176) -/

/-- One cell of `coupon_y_n.map({"Y": "Yes", "N": "No"})`: a `Series.map`
without `fillna`, so any code other than Y or N — and a null — becomes
null. -/
def mapYesNoLetter (v : Option String) : Option String :=
  v.bind (fun x => ([("Y", "Yes"), ("N", "No")] : List (String × String)).lookup x)

/-- One cell of `order_alcohol_purchased.map({1: "Yes", 0: "No"})` (also
used for `customer_with_children`): any code other than 1 or 0 — and a
null — becomes null. -/
def mapYesNoBit (v : Option Int) : Option String :=
  v.bind (fun x => ([((1 : Int), "Yes"), ((0 : Int), "No")] : List (Int × String)).lookup x)

/-! ## Normalised record (the shared-column layout, Script/01 lines 188-198) -/

/-- One row of a cleaned source under the shared 28-column layout.
Field order and names follow `shared_cols`; every field that can carry a
pandas null is an Option. -/
structure NRecord where
  chain : String
  customer_id : Option String
  order_number : Option Int
  restaurant_id : Option Int
  restaurant_city : Option String
  restaurant_state : Option String
  restaurant_zip_code : Option Int
  order_purchase_date : Option Date
  order_purchase_time : Option Time
  time_of_day : String
  order_month : Option Nat
  order_month_name : Option String
  order_year : Option Nat
  season : Option String
  order_purchase_method : Option String
  coupon_used : Option String
  alcohol_purchased : Option String
  gender : Option String
  has_children : Option String
  item_number : Option Int
  item_description : Option String
  item_code : Option String
  item_category : Option String
  quantity : Option Int
  menu_price : Option Rat
  item_total_cost : Option Rat
  Profit : Option Rat
  order_total_cost : Option Rat
deriving DecidableEq

/-- Auxiliary-column derivation of one row (lines 103-121 / 165-172):
recomputes time_of_day from the purchase time and month, month name,
year and season from the purchase date, leaving every other field
untouched. -/
def deriveAux (r : NRecord) : NRecord :=
  { r with
    time_of_day := timeOfDay r.order_purchase_time
    order_month := r.order_purchase_date.map Date.month
    order_month_name := r.order_purchase_date.map (fun d => monthName d.month)
    order_year := r.order_purchase_date.map Date.year
    season := get_season (r.order_purchase_date.map Date.month) }

/-! ## Merge (Script/01, line 210) -/

/-- The merge `pd.concat([abc_clean, xyz_clean], ignore_index=True)`:
plain row concatenation, ABC rows first, each source in its own order. -/
def mergeFrames (a b : List NRecord) : List NRecord :=
  a ++ b

/-! ## Column-oriented frame (for column dropping and selection) -/

/-- Column-oriented view of a DataFrame: a list of named columns, each a
list of nullable cells. -/
abbrev Frame : Type :=
  List (String × List (Option String))

/-- Column names of a frame, in order. -/
def colNames (df : Frame) : List String :=
  df.map (fun col => col.1)

/-- The drop `xyz = xyz.drop(columns=["item_product_cost"])` (line 138):
pandas removes the named column unconditionally when it exists, and
raises a KeyError naming it when it does not. No cell of the column is
inspected. -/
def dropColumn (df : Frame) (c : String) : Except (List String) Frame :=
  if (colNames df).contains c then
    Except.ok (df.filter (fun col => col.1 != c))
  else
    Except.error [c]

/-- The shared column list `shared_cols` (lines 188-198), verbatim. -/
def shared_cols : List String :=
  ["chain", "customer_id", "order_number", "restaurant_id",
   "restaurant_city", "restaurant_state", "restaurant_zip_code",
   "order_purchase_date", "order_purchase_time", "time_of_day",
   "order_month", "order_month_name", "order_year", "season",
   "order_purchase_method", "coupon_used", "alcohol_purchased",
   "gender", "has_children",
   "item_number", "item_description", "item_code", "item_category",
   "quantity", "menu_price", "item_total_cost", "Profit",
   "order_total_cost"]

/-- The projection `df[cols]` (lines 200-201): pandas selects exactly the
requested columns in the requested order, and raises a KeyError naming
the missing columns when any requested column is absent. -/
def selectColumns (df : Frame) (cols : List String) : Except (List String) Frame :=
  if (cols.filter (fun c => !(colNames df).contains c)).isEmpty then
    Except.ok (cols.filterMap (fun c => df.find? (fun col => col.1 == c)))
  else
    Except.error (cols.filter (fun c => !(colNames df).contains c))

/-! ## Dimension tables (Script/02, lines 139-161) -/

/-- First-occurrence deduplication by a key, the semantics of
`DataFrame.drop_duplicates(subset=keys)`: the first row of every key is
kept in order, later rows with an already-seen key are removed. -/
def dropDuplicatesBy {α : Type} {κ : Type} [DecidableEq κ] (key : α → κ) :
    List α → List α
  | [] => []
  | x :: xs => x :: dropDuplicatesBy key (xs.filter (fun y => key y != key x))
termination_by l => l.length
decreasing_by
  simp only [List.length_cons]
  exact Nat.lt_succ_of_le (xs.length_filter_le _)

/-- Row of the restaurants dimension (lines 140-144), after the
zip-code rename. -/
structure RestaurantRow where
  restaurant_id : Option Int
  restaurant_city : Option String
  restaurant_state : Option String
  restaurant_zip : Option Int
  chain : String
deriving DecidableEq

/-- Row of the products dimension (lines 149-152). -/
structure ProductRow where
  item_number : Option Int
  item_description : Option String
  item_code : Option String
  item_category : Option String
  menu_price : Option Rat
  chain : String
deriving DecidableEq

/-- Row of the customers dimension (lines 157-159). -/
structure CustomerRow where
  customer_id : Option String
  gender : Option String
  has_children : Option String
  chain : String
deriving DecidableEq

/-- Restaurants dimension: select the five restaurant columns, then
`drop_duplicates(subset=["restaurant_id"])`. -/
def restaurantsDim (df : List NRecord) : List RestaurantRow :=
  dropDuplicatesBy (fun x => x.restaurant_id)
    (df.map (fun r =>
      { restaurant_id := r.restaurant_id
        restaurant_city := r.restaurant_city
        restaurant_state := r.restaurant_state
        restaurant_zip := r.restaurant_zip_code
        chain := r.chain }))

/-- Products dimension: select the six product columns, then
`drop_duplicates(subset=["item_number", "chain"])`. -/
def productsDim (df : List NRecord) : List ProductRow :=
  dropDuplicatesBy (fun x => (x.item_number, x.chain))
    (df.map (fun r =>
      { item_number := r.item_number
        item_description := r.item_description
        item_code := r.item_code
        item_category := r.item_category
        menu_price := r.menu_price
        chain := r.chain }))

/-- Customers dimension: select the four customer columns, then
`drop_duplicates(subset=["customer_id"])`. -/
def customersDim (df : List NRecord) : List CustomerRow :=
  dropDuplicatesBy (fun x => x.customer_id)
    (df.map (fun r =>
      { customer_id := r.customer_id
        gender := r.gender
        has_children := r.has_children
        chain := r.chain }))

/-! ## Helper lemmas -/

/-- Deduplication only removes rows: every surviving row was in the input. -/
theorem dropDuplicatesBy_subset {α κ : Type} [DecidableEq κ] (key : α → κ) :
    ∀ l : List α, ∀ x ∈ dropDuplicatesBy key l, x ∈ l := by
  intro l
  induction l using dropDuplicatesBy.induct key with
  | case1 => intro x hx; simp [dropDuplicatesBy] at hx
  | case2 a as ih =>
    intro x hx
    rw [dropDuplicatesBy] at hx
    rcases List.mem_cons.mp hx with h | h
    · exact h ▸ List.mem_cons_self a _
    · exact List.mem_cons_of_mem a (List.mem_of_mem_filter (ih x h))

/-- Deduplication by a key leaves pairwise-distinct keys. -/
theorem dropDuplicatesBy_pairwise {α κ : Type} [DecidableEq κ] (key : α → κ) :
    ∀ l : List α, (dropDuplicatesBy key l).Pairwise (fun a b => key a ≠ key b) := by
  intro l
  induction l using dropDuplicatesBy.induct key with
  | case1 => simp [dropDuplicatesBy]
  | case2 a as ih =>
    rw [dropDuplicatesBy]
    refine List.Pairwise.cons ?_ ih
    intro b hb
    have hmem := dropDuplicatesBy_subset key _ b hb
    have := List.of_mem_filter hmem
    simp only [bne_iff_ne, ne_eq] at this
    exact fun h => this h.symm

/-- When every requested column is present, selecting returns a frame
whose column names are exactly the requested ones, in order. -/
theorem colNames_filterMap_find (df : Frame) :
    ∀ cols : List String, (∀ c ∈ cols, c ∈ colNames df) →
      colNames (cols.filterMap (fun c => df.find? (fun col => col.1 == c))) = cols := by
  intro cols
  induction cols with
  | nil => intro h; rfl
  | cons c cs ih =>
    intro h
    have hc : c ∈ colNames df := h c (List.mem_cons_self c cs)
    obtain ⟨col, hcol, heq⟩ := List.mem_map.mp hc
    have hsome : (df.find? (fun col => col.1 == c)).isSome := by
      rw [List.find?_isSome]
      exact ⟨col, hcol, by simp [heq]⟩
    obtain ⟨found, hfound⟩ := Option.isSome_iff_exists.mp hsome
    have hname : found.1 = c := by
      have := List.find?_some hfound
      exact eq_of_beq this
    have hrest := ih (fun d hd => h d (List.mem_cons_of_mem c hd))
    simp only [List.filterMap_cons, hfound]
    simpa [colNames, hname] using hrest

/-! ## Claim theorems -/

/-- C1 counterexample: the claim says both sources map an epoch-1970 raw
date to the unknown sentinel, but XYZ normalisation leaves its parsed
date column untouched, so a raw XYZ date parsing to 1970-01-01 is
retained as a valid 1970 date in the normalized output. -/
theorem C1_xyz_keeps_1970_counterexample :
    repairDatesXYZ [some { year := 1970, month := 1, day := 1 }]
      = [some { year := 1970, month := 1, day := 1 }] := by
  rfl

/-- C1 (amended): in source ABC every parsed date with year 1970 is reset
to the unknown sentinel (no 1970 date survives) and the corrupt-row count
`n_bad` is recorded (the nulls of the repaired column are exactly the
original nulls plus the counted 1970 rows); in source XYZ the date column
passes through unchanged, only a count of pre-2015 dates being logged. -/
theorem C1_date_repair_amended (ds : List (Option Date)) :
    (∀ d ∈ repairDatesABC ds, ∀ dt, d = some dt → dt.year ≠ 1970) ∧
    (repairDatesABC ds).count none = ds.count none + badDateCountABC ds ∧
    repairDatesXYZ ds = ds := by
  refine ⟨?_, ?_, rfl⟩
  · intro d hd dt hdt
    subst hdt
    obtain ⟨d0, hd0, hrep⟩ := List.mem_map.mp hd
    cases d0 with
    | none => simp [repairDateABC] at hrep
    | some dt0 =>
      by_cases h : dt0.year = 1970
      · simp [repairDateABC, h] at hrep
      · simp [repairDateABC, h] at hrep
        rw [← hrep]
        exact h
  · induction ds with
    | nil => rfl
    | cons d ds ih =>
      cases d with
      | none =>
        simp [repairDatesABC, repairDateABC, badDateCountABC, is1970,
          List.count_cons, List.filter] at *
        omega
      | some dt =>
        by_cases h : dt.year = 1970
        · have hb : (dt.year == 1970) = true := by simp [h]
          simp [repairDatesABC, repairDateABC, badDateCountABC, is1970, hb,
            List.count_cons, List.filter] at *
          omega
        · have hb : (dt.year == 1970) = false := by simp [h]
          simp [repairDatesABC, repairDateABC, badDateCountABC, is1970, hb,
            List.count_cons, List.filter] at *
          omega

/-- C1 witness: a concrete three-row ABC column with one corrupt 1970
date, one valid date and one null; the repaired column keeps no 1970
date, and the recorded count is one. -/
theorem C1_date_repair_witness :
    (∀ d ∈ repairDatesABC
        [some { year := 1970, month := 1, day := 1 },
         some { year := 2021, month := 6, day := 15 }, none],
       ∀ dt, d = some dt → dt.year ≠ 1970) ∧
    (repairDatesABC
        [some { year := 1970, month := 1, day := 1 },
         some { year := 2021, month := 6, day := 15 }, none]).count none
      = ([some { year := 1970, month := 1, day := 1 },
          some { year := 2021, month := 6, day := 15 }, none] :
            List (Option Date)).count none
        + badDateCountABC
            [some { year := 1970, month := 1, day := 1 },
             some { year := 2021, month := 6, day := 15 }, none] :=
  ⟨(C1_date_repair_amended _).1, (C1_date_repair_amended _).2.1⟩

/-- C2 counterexample: the claim says an unknown purchase time yields an
unknown flag, but the else-branch of the lambda catches the null time and
returns the defaulted value PM. -/
theorem C2_unknown_time_defaults_counterexample :
    timeOfDay none = "PM" := by
  rfl

/-- C2 (amended): the flag is AM exactly when the purchase time is known
with hour in [0,12); every other case — hour at least 12, but also an
unknown time — falls to the else-branch and yields the default PM, never
an unknown flag. -/
theorem C2_time_of_day_amended (t : Option Time) :
    (timeOfDay t = "AM" ↔ ∃ tm, t = some tm ∧ tm.hour < 12) ∧
    (t = none → timeOfDay t = "PM") := by
  cases t with
  | none =>
    refine ⟨⟨fun h => absurd h (by decide), ?_⟩, fun _ => rfl⟩
    rintro ⟨tm, htm, hlt⟩
    cases htm
  | some tm =>
    refine ⟨⟨fun h => ⟨tm, rfl, ?_⟩, ?_⟩, fun hn => by cases hn⟩
    · by_contra hge
      have hpm : timeOfDay (some tm) = "PM" := by simp [timeOfDay, hge]
      rw [hpm] at h
      exact absurd h (by decide)
    · rintro ⟨tm2, htm2, hlt⟩
      cases htm2
      simp [timeOfDay, hlt]

/-- C2 witness: a 09:30 time is flagged AM, and a null time is flagged
with the default PM. -/
theorem C2_time_of_day_witness :
    (timeOfDay (some { hour := 9, minute := 30 }) = "AM" ↔
      ∃ tm, (some { hour := 9, minute := 30 } : Option Time) = some tm ∧ tm.hour < 12) ∧
    timeOfDay (none : Option Time) = "PM" :=
  ⟨(C2_time_of_day_amended (some { hour := 9, minute := 30 })).1,
   (C2_time_of_day_amended none).2 rfl⟩

/-- C3: when the purchase date of a row carries the unknown sentinel, the four
derived calendar fields — month, month name, year and season — are all
the unknown sentinel after derivation; none is partially populated. -/
theorem C3_sentinel_consistency (r : NRecord) (h : r.order_purchase_date = none) :
    (deriveAux r).order_month = none ∧
    (deriveAux r).order_month_name = none ∧
    (deriveAux r).order_year = none ∧
    (deriveAux r).season = none := by
  simp [deriveAux, h, get_season]

/-- Concrete row used to instantiate record-level theorems. -/
def sampleRow : NRecord :=
  { chain := "ABC"
    customer_id := some "C-001"
    order_number := some 5
    restaurant_id := some 1
    restaurant_city := some "Austin"
    restaurant_state := some "TX"
    restaurant_zip_code := some 73301
    order_purchase_date := none
    order_purchase_time := none
    time_of_day := "PM"
    order_month := none
    order_month_name := none
    order_year := none
    season := none
    order_purchase_method := some "Online"
    coupon_used := some "Yes"
    alcohol_purchased := some "No"
    gender := some "F"
    has_children := some "Yes"
    item_number := some 10
    item_description := some "Margherita"
    item_code := some "PZ-10"
    item_category := some "Pizza"
    quantity := some 2
    menu_price := some 10
    item_total_cost := some 20
    Profit := some 5
    order_total_cost := some 20 }

/-- C3 witness: the sample row has an unknown purchase date, and after
derivation all four calendar fields are unknown. -/
theorem C3_sentinel_consistency_witness :
    (deriveAux sampleRow).order_month = none ∧
    (deriveAux sampleRow).order_month_name = none ∧
    (deriveAux sampleRow).order_year = none ∧
    (deriveAux sampleRow).season = none :=
  C3_sentinel_consistency sampleRow rfl

/-- C4: the merge of two normalised row sets has exactly the sum of their
lengths, its first block is source A unchanged and its second block is
source B unchanged — no row is added, dropped, deduplicated or
reordered. -/
theorem C4_row_conservation (a b : List NRecord) :
    (mergeFrames a b).length = a.length + b.length ∧
    (mergeFrames a b).take a.length = a ∧
    (mergeFrames a b).drop a.length = b := by
  refine ⟨List.length_append a b, ?_, ?_⟩
  · exact List.take_left a b
  · exact List.drop_left a b

/-- Dropping a column removes exactly that name from the column list. -/
theorem colNames_filter_ne (df : Frame) (c : String) :
    colNames (df.filter (fun col => col.1 != c))
      = (colNames df).filter (fun name => name != c) := by
  induction df with
  | nil => rfl
  | cons col rest ih =>
    cases hb : (col.1 != c) <;>
      simp only [colNames, List.map_cons, List.filter_cons, hb, ih] <;>
      simp [colNames] at ih ⊢ <;>
      exact ih

/-- C5 counterexample: the claim says a column holding at least one
non-missing value is never dropped, but the drop is unconditional — here
item_product_cost holds the non-missing cell 4.99 and is removed
anyway. -/
theorem C5_drop_ignores_content_counterexample :
    dropColumn [("item_product_cost", [some "4.99"]), ("chain", [some "XYZ"])]
        "item_product_cost"
      = Except.ok [("chain", [some "XYZ"])] := by
  rfl

/-- C5 (amended): the drop removes the named column unconditionally
whenever the column exists, with no inspection of its cells — the 100%
missing status of item_product_cost is asserted only in a comment and the
log, never checked; a column with non-missing values is dropped all the
same. -/
theorem C5_drop_unconditional_amended (df : Frame) (c : String) (h : c ∈ colNames df) :
    ∃ out, dropColumn df c = Except.ok out ∧
      colNames out = (colNames df).filter (fun name => name != c) := by
  refine ⟨df.filter (fun col => col.1 != c), ?_, colNames_filter_ne df c⟩
  simp [dropColumn, h]

/-- C5 witness: on the two-column frame whose item_product_cost column
holds a non-missing value, the drop still succeeds and removes exactly
that column. -/
theorem C5_drop_unconditional_witness :
    ∃ out,
      dropColumn [("item_product_cost", [some "4.99"]), ("chain", [some "XYZ"])]
          "item_product_cost"
        = Except.ok out ∧
      colNames out
        = (colNames [("item_product_cost", [some "4.99"]), ("chain", [some "XYZ"])]).filter
            (fun name => name != "item_product_cost") :=
  C5_drop_unconditional_amended _ "item_product_cost" (by decide)

/-- C6: vocabulary normalisation is fail-open — a category found in the
lookup table of the source is replaced by its canonical spelling, a category
absent from the table falls back to itself unchanged, a non-null cell
stays non-null (never dropped or nulled), and a null cell stays null. -/
theorem C6_vocab_fail_open (v : String) :
    (∀ c, category_map_abc.lookup v = some c → applyVocab category_map_abc v = c) ∧
    (category_map_abc.lookup v = none → applyVocab category_map_abc v = v) ∧
    (∀ c, category_map_xyz.lookup v = some c → applyVocab category_map_xyz v = c) ∧
    (category_map_xyz.lookup v = none → applyVocab category_map_xyz v = v) ∧
    (∀ m : List (String × String), applyVocabOpt m (some v) = some (applyVocab m v)) ∧
    (∀ m : List (String × String), applyVocabOpt m none = none) := by
  refine ⟨fun c h => ?_, fun h => ?_, fun c h => ?_, fun h => ?_,
    fun m => rfl, fun m => rfl⟩ <;>
    simp [applyVocab, h]

/-- C6 witness: the mapped XYZ spelling Beverage becomes Beverages, and
the unmapped spelling Tacos passes through the ABC table unchanged. -/
theorem C6_vocab_fail_open_witness :
    applyVocab category_map_xyz "Beverage" = "Beverages" ∧
    applyVocab category_map_abc "Tacos" = "Tacos" :=
  ⟨(C6_vocab_fail_open "Beverage").2.2.1 "Beverages" (by rfl),
   (C6_vocab_fail_open "Tacos").2.1 (by rfl)⟩

/-- C7: normalisation is idempotent — every value of the canonical
seven-category vocabulary is fixed by both source lookup tables, and
re-running the auxiliary-column derivation on an already-derived row (its
date and time fields unchanged) reproduces the row exactly. -/
theorem C7_normalizer_idempotent :
    (∀ v ∈ canonicalVocab,
      applyVocab category_map_abc v = v ∧ applyVocab category_map_xyz v = v) ∧
    (∀ r : NRecord, deriveAux (deriveAux r) = deriveAux r) :=
  ⟨by decide, fun r => rfl⟩

/-- C7 witness: the canonical value Salads is fixed by both tables, and
deriving twice from the sample row equals deriving once. -/
theorem C7_normalizer_idempotent_witness :
    (applyVocab category_map_abc "Salads" = "Salads" ∧
     applyVocab category_map_xyz "Salads" = "Salads") ∧
    deriveAux (deriveAux sampleRow) = deriveAux sampleRow :=
  ⟨C7_normalizer_idempotent.1 "Salads" (by decide),
   C7_normalizer_idempotent.2 sampleRow⟩

/-- C8: in the dimension tables built from any merged dataset,
restaurant_id is pairwise distinct across the restaurants dimension,
customer_id across the customers dimension, and the pair
(item_number, chain) across the products dimension. -/
theorem C8_dimension_uniqueness (df : List NRecord) :
    (restaurantsDim df).Pairwise (fun a b => a.restaurant_id ≠ b.restaurant_id) ∧
    (customersDim df).Pairwise (fun a b => a.customer_id ≠ b.customer_id) ∧
    (productsDim df).Pairwise
      (fun a b => (a.item_number, a.chain) ≠ (b.item_number, b.chain)) :=
  ⟨dropDuplicatesBy_pairwise _ _, dropDuplicatesBy_pairwise _ _,
   dropDuplicatesBy_pairwise _ _⟩

/-- C8 witness: on a two-row dataset repeating the sample row, all three
dimension tables come out with pairwise-distinct keys. -/
theorem C8_dimension_uniqueness_witness :
    (restaurantsDim [sampleRow, sampleRow]).Pairwise
      (fun a b => a.restaurant_id ≠ b.restaurant_id) ∧
    (customersDim [sampleRow, sampleRow]).Pairwise
      (fun a b => a.customer_id ≠ b.customer_id) ∧
    (productsDim [sampleRow, sampleRow]).Pairwise
      (fun a b => (a.item_number, a.chain) ≠ (b.item_number, b.chain)) :=
  C8_dimension_uniqueness [sampleRow, sampleRow]

/-- C9: unification fails loudly — when any declared shared column is
absent from a source, the selection halts with an error naming that
column; when every shared column is present, the selection succeeds and
the resulting frame has exactly the shared columns, in order, none
silently added or dropped. -/
theorem C9_unify_columns (df : Frame) :
    ((∀ c ∈ shared_cols, c ∈ colNames df) →
      ∃ out, selectColumns df shared_cols = Except.ok out ∧
        colNames out = shared_cols) ∧
    (∀ c ∈ shared_cols, c ∉ colNames df →
      ∃ m, selectColumns df shared_cols = Except.error m ∧ c ∈ m) := by
  constructor
  · intro h
    refine ⟨shared_cols.filterMap (fun c => df.find? (fun col => col.1 == c)), ?_,
      colNames_filterMap_find df shared_cols h⟩
    simp only [selectColumns]
    rw [if_pos]
    rw [List.filter_eq_nil_iff.mpr]
    · rfl
    · intro a ha
      simpa using h a ha
  · intro c hc hnot
    have hcontains : (colNames df).contains c = false := by simp [hnot]
    have hmem : c ∈ shared_cols.filter (fun x => !(colNames df).contains x) :=
      List.mem_filter.mpr ⟨hc, by simpa using hnot⟩
    have hne : (shared_cols.filter (fun x => !(colNames df).contains x)).isEmpty = false := by
      rcases hfe : shared_cols.filter (fun x => !(colNames df).contains x) with _ | ⟨a, as⟩
      · rw [hfe] at hmem
        exact absurd hmem (List.not_mem_nil c)
      · rfl
    refine ⟨shared_cols.filter (fun x => !(colNames df).contains x), ?_, hmem⟩
    simp only [selectColumns]
    rw [if_neg]
    intro habs
    rw [habs] at hne
    cases hne

/-- C9 witness: a source frame carrying all 28 shared columns unifies to
exactly the shared layout, and a source frame carrying only the chain
column makes the selection halt with an error naming customer_id among
the missing columns. -/
theorem C9_unify_columns_witness :
    (∃ out,
      selectColumns (shared_cols.map (fun c => (c, ([] : List (Option String)))))
          shared_cols
        = Except.ok out ∧
      colNames out = shared_cols) ∧
    (∃ m,
      selectColumns [("chain", ([] : List (Option String)))] shared_cols
        = Except.error m ∧ "customer_id" ∈ m) :=
  ⟨(C9_unify_columns _).1 (by decide),
   (C9_unify_columns _).2 "customer_id" (by decide) (by decide)⟩

/-- C10: the coded boolean fields are fail-closed — the exact codes Y/N
map to Yes/No and the exact codes 1/0 map to Yes/No, while any other raw
code, and a null, becomes the null sentinel rather than passing through
or defaulting. -/
theorem C10_coded_booleans_fail_closed (s : String) (n : Int) :
    mapYesNoLetter (some "Y") = some "Yes" ∧
    mapYesNoLetter (some "N") = some "No" ∧
    (s ≠ "Y" → s ≠ "N" → mapYesNoLetter (some s) = none) ∧
    mapYesNoLetter none = none ∧
    mapYesNoBit (some 1) = some "Yes" ∧
    mapYesNoBit (some 0) = some "No" ∧
    (n ≠ 1 → n ≠ 0 → mapYesNoBit (some n) = none) ∧
    mapYesNoBit none = none := by
  refine ⟨rfl, rfl, fun h1 h2 => ?_, rfl, rfl, rfl, fun h1 h2 => ?_, rfl⟩
  · have hy : (s == "Y") = false := by simp [h1]
    have hn : (s == "N") = false := by simp [h2]
    simp [mapYesNoLetter, List.lookup, hy, hn]
  · have hone : (n == 1) = false := by simp [h1]
    have hzero : (n == 0) = false := by simp [h2]
    simp [mapYesNoBit, List.lookup, hone, hzero]

/-- C10 witness: the unexpected letter code X and the unexpected numeric
code 7 both come out as the null sentinel. -/
theorem C10_coded_booleans_witness :
    mapYesNoLetter (some "X") = none ∧ mapYesNoBit (some 7) = none :=
  ⟨(C10_coded_booleans_fail_closed "X" 7).2.2.1 (by decide) (by decide),
   (C10_coded_booleans_fail_closed "X" 7).2.2.2.2.2.2.1 (by decide) (by decide)⟩
